import Mathlib

set_option maxRecDepth 1000000

/-!
# Verification of the pz-battlesnake environment wrapper

Shallow embedding of `src/pz_battlesnake/env/base_env.py` and
`src/pz_battlesnake/spaces/move.py`.  The game engine behind the four entry
points `env_reset` / `env_step` / `env_done` / `env_render` (module
`pz_battlesnake.wrapper`) and the `BattlesnakeOptions` dataclass are not part
of the visible sources, so they are modelled from the specification
(sections 3, 4 and 5 of the design document); every such definition carries a
doc comment starting with `Modelled from the spec:`.
-/

/-- Decidable equality for `Except` (not an instance in this toolchain). -/
instance {ε α : Type _} [DecidableEq ε] [DecidableEq α] : DecidableEq (Except ε α) := fun x y =>
  match x, y with
  | .error a, .error b =>
    if h : a = b then .isTrue (congrArg Except.error h)
    else .isFalse fun hc => by injection hc with h'; exact h h'
  | .error _, .ok _ => .isFalse fun hc => Except.noConfusion hc
  | .ok _, .error _ => .isFalse fun hc => Except.noConfusion hc
  | .ok a, .ok b =>
    if h : a = b then .isTrue (congrArg Except.ok h)
    else .isFalse fun hc => by injection hc with h'; exact h h'

namespace PZ

/-- A board coordinate.  Modelled from the spec: integer coordinates `(x, y)`,
valid inside `[0,W) × [0,H)`. -/
abbrev Coord := Int × Int

/-- Modelled from the spec: cause-of-death taxonomy of §4.3 (wall-collision,
self-or-body-collision, head-collision, starvation). -/
inductive DeathCause where
  | wall
  | bodyCollision
  | headCollision
  | starvation
deriving DecidableEq, Repr

/-- Modelled from the spec: a snake has a stable id, an ordered body (head
first), health in `[0,100]` and an alive flag; the cause of death is recorded
by `kill`. -/
structure Snake where
  id : String
  body : List Coord
  health : Nat
  alive : Bool
  cause : Option DeathCause
deriving DecidableEq, Repr

/-- Modelled from the spec: the Game Session state — board dimensions, food
occupancy, the set of snakes, the turn counter, the session-owned seeded
random source, and the configured minimum-living threshold (`0` for solo,
`1` for multi-agent). -/
structure GameState where
  width : Nat
  height : Nat
  food : List Coord
  snakes : List Snake
  turn : Nat
  rng : Nat
  threshold : Nat
deriving DecidableEq, Repr

/-- Modelled from the spec: observation snapshot — board occupancy (food
cells; snake segments are listed with their owners), each living snake's
body and health, and the turn number. -/
structure Observation where
  food : List Coord
  snakes : List (String × List Coord × Nat)
  turn : Nat
deriving DecidableEq, Repr

/-- Modelled from the spec: per-agent TurnResult — observation snapshot,
numeric reward, done flag, auxiliary info (cause of death, if any). -/
structure TurnResult where
  observation : Observation
  reward : Int
  done : Bool
  info : Option DeathCause
deriving DecidableEq, Repr

/-- Modelled from the spec: errors the engine can raise to the caller.
`MissingMove` is the fatal usage error of §7. -/
inductive EngineError where
  | missingMove
deriving DecidableEq, Repr

/-- A moves mapping: agent name to encoded move (`some m`) or to the explicit
"agent already dead" marker `none`.  A Python `dict` is embedded as an
association list in insertion order. -/
abbrev Moves := List (String × Option Nat)

/-- Modelled from the spec: the session-owned deterministic random source is
a linear congruential generator over `Nat`. -/
def rngNext (r : Nat) : Nat :=
  (1103515245 * r + 12345) % 2147483648

/-- Unit vector of an encoded move: 0 = up, 1 = down, 2 = left, 3 = right. -/
def dirOf (m : Nat) : Coord :=
  match m with
  | 0 => (0, 1)
  | 1 => (0, -1)
  | 2 => (-1, 0)
  | _ => (1, 0)

def addCoord (a b : Coord) : Coord := (a.1 + b.1, a.2 + b.2)

/-- Head of a snake (spec invariant: body length ≥ 1 while alive). -/
def Snake.head (s : Snake) : Coord := s.body.headD (0, 0)

/-- Modelled from the spec: coordinates outside `[0,W) × [0,H)` are invalid. -/
def outOfBounds (gs : GameState) (c : Coord) : Bool :=
  c.1 < 0 || c.2 < 0 || (gs.width : Int) ≤ c.1 || (gs.height : Int) ≤ c.2

/-- All board cells in a fixed enumeration order. -/
def allCells (gs : GameState) : List Coord :=
  (List.range gs.width).flatMap fun x =>
    (List.range gs.height).map fun y => ((x : Int), (y : Int))

/-- Cells not occupied by food or by any living snake's body. -/
def vacantCells (gs : GameState) : List Coord :=
  (allCells gs).filter fun c =>
    ¬ c ∈ gs.food ∧ ∀ s ∈ gs.snakes, s.alive = true → ¬ c ∈ s.body

/-- Modelled from the spec: `spawn_food` selects a vacant cell
deterministically from the random source and marks it food; a full board
(`NoVacantCell`) is recovered by skipping the spawn. -/
def spawnFood (gs : GameState) : GameState :=
  let vs := vacantCells gs
  match vs with
  | [] => gs
  | _ =>
    let r := rngNext gs.rng
    { gs with rng := r, food := gs.food ++ [vs.getD (r % vs.length) (0, 0)] }

/-- Modelled from the spec: food-spawn policy — fixed-count refill keeping at
least one food on the board, drawing from the session random source. -/
def refillFood (gs : GameState) : GameState :=
  if gs.food.length < 1 then spawnFood gs else gs

/-- Observation snapshot of the current session state (board occupancy,
living snakes' bodies and health, turn number). -/
def obsOf (gs : GameState) : Observation :=
  { food := gs.food
    snakes := (gs.snakes.filter (·.alive)).map fun s => (s.id, s.body, s.health)
    turn := gs.turn }

/-- `true` when the moves mapping supplies an actual move for this agent. -/
def hasMove (mv : Moves) (a : String) : Bool :=
  match mv.lookup a with
  | some (some _) => true
  | _ => false

/-- The snakes currently living in a session state. -/
def livingSnakes (gs : GameState) : List Snake :=
  gs.snakes.filter (·.alive)

/-- Move phase + health decay + body update for one living snake (spec §4.3
steps 1–3): candidate head from the move, health decremented by 1, body
shifted forward, except that landing on food keeps the tail and resets
health to 100 (growth precedes the starvation check). -/
def moveSnake (gs : GameState) (mv : Moves) (s : Snake) : Snake :=
  let m := ((mv.lookup s.id).getD none).getD 0
  let h := addCoord s.head (dirOf m)
  if h ∈ gs.food then
    { s with body := h :: s.body, health := 100 }
  else
    { s with body := h :: s.body.dropLast, health := s.health - 1 }

/-- Collision detection for one post-move snake against all post-move snakes
(spec §4.3 step 4, applied simultaneously): out-of-bounds head, head on any
body segment (own non-head segments included), head-to-head with the
longest-survives rule, then starvation. -/
def resolveSnake (gs : GameState) (moved : List Snake) (s : Snake) : Snake :=
  let h := s.head
  if outOfBounds gs h then
    { s with alive := false, cause := some .wall }
  else if moved.any fun t => h ∈ t.body.drop 1 then
    { s with alive := false, cause := some .bodyCollision }
  else
    let rivals := moved.filter fun t => t.id ≠ s.id ∧ t.head = h
    if rivals.isEmpty = false ∧ rivals.all (fun t => t.body.length < s.body.length) = false then
      { s with alive := false, cause := some .headCollision }
    else if s.health = 0 then
      { s with alive := false, cause := some .starvation }
    else
      s

/-- Modelled from the spec: `env_step` — one simultaneous turn of the Rules
Engine (§4.3).  Fails with `MissingMove` when a living snake has no move in
the mapping; otherwise resolves the turn (move phase, health decay, body
update, simultaneous collision detection, board sync with policy food
refill, elimination) and reports one TurnResult per agent living at the
start of the turn. -/
def envStep (gs : GameState) (mv : Moves) : Except EngineError (GameState × List (String × TurnResult)) :=
  if (livingSnakes gs).any fun s => !(hasMove mv s.id) then
    .error .missingMove
  else
    let moved := (livingSnakes gs).map (moveSnake gs mv)
    let resolved := moved.map (resolveSnake gs moved)
    let eaten := gs.food.filter fun c => moved.any fun s => s.head = c
    let food1 := gs.food.filter fun c => ¬ c ∈ eaten
    let snakes1 := gs.snakes.map fun s =>
      ((resolved.filter (fun t => t.id = s.id)).headD s)
    let gs1 : GameState :=
      { gs with
        snakes := snakes1
        food := food1
        turn := gs.turn + 1 }
    let gs2 := refillFood gs1
    let results := (livingSnakes gs).map fun s0 =>
      let s := (resolved.filter (fun t => t.id = s0.id)).headD s0
      (s0.id,
        { observation := obsOf gs2
          reward := if s.alive then 0 else -1
          done := !s.alive
          info := s.cause : TurnResult })
    .ok (gs2, results)

/-- Modelled from the spec: `is_done` — true iff the living-snake count is
at most the configured threshold. -/
def envDone (gs : GameState) : Bool :=
  (livingSnakes gs).length ≤ gs.threshold

/-- One rendered cell: food, a snake segment, or empty. -/
def cellChar (gs : GameState) (c : Coord) : String :=
  if gs.snakes.any (fun s => s.alive ∧ c ∈ s.body) then "s"
  else if c ∈ gs.food then "f"
  else "."

/-- Modelled from the spec: `env_render` — a pure read-only textual
projection of the board (it produces text and cannot mutate the state). -/
def envRender (gs : GameState) (colorized : Bool) : String :=
  (if colorized then "color\n" else "") ++
    String.join (((List.range gs.height).reverse).map fun y =>
      String.join (((List.range gs.width)).map fun x =>
        cellChar gs ((x : Int), (y : Int))) ++ "\n")

/-- Modelled from the spec: the `BattlesnakeOptions` record built by
`BaseEnv.__init__` — the options must recognize at minimum width, height,
game map, game type and an optional seed; the agent names and colors are
also stored (§6). -/
structure BattlesnakeOptions where
  width : Nat
  height : Nat
  colors : List String
  game_map : String
  game_type : String
  names : List String
  seed : Option Int
deriving DecidableEq, Repr

/-- Modelled from the spec: the `DEFAULT_COLORS` constant of
`pz_battlesnake.constants` (a list of color strings; its exact values are
irrelevant to the session semantics). -/
def DEFAULT_COLORS : List String := ["#00FF00", "#0000FF", "#FF0000", "#FFFF00"]

/-- Modelled from the spec: the random source is seeded from the stored seed
when one is present and from a fresh entropy draw otherwise (§4.4). -/
def seedOrFresh (seed : Option Int) (fresh : Nat) : Nat :=
  match seed with
  | some s => s.natAbs
  | none => fresh

/-- Modelled from the spec: `env_reset` — reinitializes the board, spawns
the snakes at policy-defined starting positions with full health, clears
the turn counter, re-seeds the random source from the options' seed if one
is stored and otherwise draws a fresh source (embedded as the explicit
`fresh` entropy argument), spawns initial food from the random source, and
returns the initial observation for each agent (§4.4, §5). -/
def envReset (o : BattlesnakeOptions) (fresh : Nat) : GameState × List (String × Observation) :=
  let rng0 : Nat := seedOrFresh o.seed fresh
  let snakes := (List.range o.names.length).map fun i =>
    let p : Coord := (((2 * i + 1) % o.width : Nat), ((o.height / 2 : Nat) : Int))
    { id := o.names.getD i ""
      body := [p, p, p]
      health := 100
      alive := true
      cause := none : Snake }
  let gs0 : GameState :=
    { width := o.width
      height := o.height
      food := []
      snakes := snakes
      turn := 0
      rng := rng0
      threshold := if o.game_type = "solo" then 0 else 1 }
  let gs1 := spawnFood gs0
  (gs1, snakes.map fun s => (s.id, obsOf gs1))

/-- Gymnasium `Discrete(n)` space: the integers `0 ≤ x < n`. -/
structure SpaceDiscrete where
  n : Nat
deriving DecidableEq, Repr

/-- `Discrete.contains`: an integer is in `Discrete(n)` iff `0 ≤ x < n`. -/
def SpaceDiscrete.containsInt (sp : SpaceDiscrete) (x : Int) : Bool :=
  0 ≤ x ∧ x < (sp.n : Int)

/-- Gymnasium `Dict` space, recorded by the names of its declared
subspaces; `spaces.Dict()` declares none. -/
structure SpaceDict where
  fields : List String
deriving DecidableEq, Repr

/-- The `Move` action space of `src/pz_battlesnake/spaces/move.py`:
`possible_moves = [0, 1, 2, 3]` and `Move()` is `Discrete(len(moves))`. -/
def Move.possible_moves : List Nat := [0, 1, 2, 3]

/-- The `Discrete` space underlying `Move()`. -/
def Move.space : SpaceDiscrete := ⟨Move.possible_moves.length⟩

/-- `Move.contains` delegates to `Discrete.contains`. -/
def Move.containsInt (x : Int) : Bool := Move.space.containsInt x

namespace BaseEnv

/-- The wrapper-level state of `BaseEnv`: the fixed `possible_agents` list,
the mutable `agents` list, the stored options, and the engine-side game
state (a module-level global in the Python wrapper, threaded explicitly
here). -/
structure EnvState where
  possibleAgents : List String
  agents : List String
  options : BattlesnakeOptions
  game : GameState
deriving DecidableEq, Repr

/-- `BaseEnv.__init__`: `possible_agents = ["agent_0", …]`, and the options
record is built from the constructor arguments with `names =
possible_agents`.  The `agents` attribute does not exist before `reset`;
it is embedded as the empty list. -/
def init (width height num_agents : Nat) (colors : List String)
    (game_map game_type : String) : EnvState :=
  let possible := (List.range num_agents).map fun i => "agent_" ++ toString i
  { possibleAgents := possible
    agents := []
    options :=
      { width := width
        height := height
        colors := colors
        game_map := game_map
        game_type := game_type
        names := possible
        seed := none }
    game :=
      { width := width, height := height, food := [], snakes := [],
        turn := 0, rng := 0, threshold := 1 } }

/-- Result of `observation_space` / `action_space`: either the space or the
message of the failed `assert`. -/
abbrev SpaceResult (α : Type) := Except String α

/-- `BaseEnv.observation_space`: asserts the agent is provided (truthy) and
is one of `possible_agents`, then returns `spaces.Dict()` — a Dict space
declaring no subspaces. -/
def observation_space (st : EnvState) (agent : Option String) : SpaceResult SpaceDict :=
  match agent with
  | none => .error "Agent must be provided"
  | some a =>
    if a = "" then .error "Agent must be provided"
    else if a ∈ st.possibleAgents then .ok ⟨[]⟩
    else .error "agent must be one of possible_agents"

/-- `BaseEnv.action_space`: asserts the agent is provided (truthy) and is
one of `possible_agents`, then returns `spaces.Discrete(4)`. -/
def action_space (st : EnvState) (agent : Option String) : SpaceResult SpaceDiscrete :=
  match agent with
  | none => .error "Agent must be provided"
  | some a =>
    if a = "" then .error "Agent must be provided"
    else if a ∈ st.possibleAgents then .ok ⟨4⟩
    else .error "agent must be one of possible_agents"

/-- `BaseEnv.render`: valid modes are `ascii`, `color` and `human`; a valid
mode calls `env_render(colorized)` with `colorized` true exactly for
`color` and returns `None`; any other mode fails the assert.  The rendered
text is reported alongside the unchanged state. -/
def render (st : EnvState) (mode : String) : Except String (EnvState × Option Unit × String) :=
  if mode = "ascii" ∨ mode = "color" ∨ mode = "human" then
    .ok (st, none, envRender st.game (mode = "color"))
  else
    .error "Valid render modes are ascii and color"

/-- Return value of `BaseEnv.reset`: observations plus the empty info dict
when `return_info` is true, observations alone otherwise. -/
inductive ResetReturn where
  | withInfo (obs : List (String × Observation)) (info : List (String × Unit))
  | only (obs : List (String × Observation))
deriving DecidableEq, Repr

/-- The seed `reset` stores into the options: the given seed when it is
truthy (a Python int is truthy iff nonzero, and `None` is falsy), `None`
otherwise. -/
def storeSeed (seed : Option Int) : Option Int :=
  match seed with
  | some s => if s = 0 then none else some s
  | none => none

/-- Assembles the state and return value of `reset` from the engine's
`env_reset` output. -/
def resetBuild (st : EnvState) (opts : BattlesnakeOptions) (return_info : Bool)
    (p : GameState × List (String × Observation)) : EnvState × ResetReturn :=
  ({ st with agents := st.possibleAgents, options := opts, game := p.1 },
    if return_info then .withInfo p.2 [] else .only p.2)

/-- `BaseEnv.reset`: restores `agents` to `possible_agents`, stores the seed
into the options if it is truthy and `None` otherwise, then calls
`env_reset(options)`.  The engine's fresh random source for the unseeded
case is the explicit `fresh` argument. -/
def reset (st : EnvState) (seed : Option Int) (return_info : Bool) (fresh : Nat) :
    EnvState × ResetReturn :=
  let opts := { st.options with seed := storeSeed seed }
  resetBuild st opts return_info (envReset opts fresh)

/-- Return value of `BaseEnv.step`: the falsy-action path returns the
4-tuple `({}, {}, {}, {})`; the engine path returns the 5-tuple
`(observations, rewards, dones, truncations, infos)`. -/
inductive StepReturn where
  | four (observations : List (String × Observation)) (rewards : List (String × Int))
      (dones : List (String × Bool)) (infos : List (String × Option DeathCause))
  | five (observations : List (String × Observation)) (rewards : List (String × Int))
      (dones : List (String × Bool)) (truncations : List (String × Bool))
      (infos : List (String × Option DeathCause))
deriving DecidableEq, Repr

/-- Python truthiness of the `action` argument of `step`: `None` and the
empty dict are falsy. -/
def isFalsy : Option Moves → Bool
  | none => true
  | some [] => true
  | some (_ :: _) => false

/-- The moves mapping carried by a non-falsy `action`. -/
def mvOf : Option Moves → Moves
  | none => []
  | some l => l

/-- Assembles the non-falsy-path return of `step` from the engine's
`env_step` output: the per-agent result dicts are built field by field, the
truncations dict maps every current agent to `False`, and the `agents` list
is emptied when `env_done()` holds.  An engine error propagates. -/
def stepBuild (st : EnvState) (engineDone : GameState → Bool)
    (r : Except EngineError (GameState × List (String × TurnResult))) :
    Except EngineError (EnvState × StepReturn) :=
  match r with
  | .error e => .error e
  | .ok (g, res) =>
    let observations := res.map fun p => (p.1, p.2.observation)
    let rewards := res.map fun p => (p.1, p.2.reward)
    let dones := res.map fun p => (p.1, p.2.done)
    let infos := res.map fun p => (p.1, p.2.info)
    let truncations := st.agents.map fun a => (a, false)
    let st1 := { st with game := g }
    let st2 := if engineDone g then { st1 with agents := [] } else st1
    .ok (st2, .five observations rewards dones truncations infos)

/-- `BaseEnv.step`, parametrized by the engine entry points it calls
(`env_step` and `env_done`): a falsy action (Python `None` or the empty
dict) empties `agents` and returns four empty dicts without calling the
engine; otherwise the engine resolves the turn (an engine error
propagates), the per-agent result dicts are built field by field from the
engine's result, `truncations` maps every current agent to `False`, and
`agents` is emptied when `env_done()` holds. -/
def stepWith
    (engineStep : GameState → Moves → Except EngineError (GameState × List (String × TurnResult)))
    (engineDone : GameState → Bool)
    (st : EnvState) (action : Option Moves) :
    Except EngineError (EnvState × StepReturn) :=
  if isFalsy action then
    .ok ({ st with agents := [] }, .four [] [] [] [])
  else
    stepBuild st engineDone (engineStep st.game (mvOf action))

/-- `BaseEnv.step` with the session's engine. -/
def step (st : EnvState) (action : Option Moves) :
    Except EngineError (EnvState × StepReturn) :=
  stepWith envStep envDone st action

/-- The post-call wrapper state of a successful `step`, if any. -/
def okState : Except EngineError (EnvState × StepReturn) → Option EnvState
  | .ok (st, _) => some st
  | .error _ => none

/-- The return value of a successful `step`, if any. -/
def okReturn : Except EngineError (EnvState × StepReturn) → Option StepReturn
  | .ok (_, r) => some r
  | .error _ => none

end BaseEnv

/-- Run a list of step calls from a state; a raised engine error aborts the
session. -/
def runSteps : BaseEnv.EnvState → List Moves → List BaseEnv.StepReturn
  | _, [] => []
  | st, m :: ms =>
    match BaseEnv.step st (some m) with
    | .error _ => []
    | .ok (st', r) => r :: runSteps st' ms

/-- One replay of a session: `reset(seed)` followed by the moves of `M`,
collecting the reset return and every step return.  `fresh` is the entropy
the engine draws when no seed is stored. -/
def runSession (st : BaseEnv.EnvState) (seed : Option Int) (fresh : Nat)
    (ms : List Moves) : BaseEnv.ResetReturn × List BaseEnv.StepReturn :=
  let (st1, r0) := BaseEnv.reset st seed true fresh
  (r0, runSteps st1 ms)

/-! ## Concrete sessions used to instantiate and to refute claims -/

/-- A 7×7 solo environment, as built by the demo script. -/
def env0 : BaseEnv.EnvState := BaseEnv.init 7 7 1 DEFAULT_COLORS "solo" "solo"

/-- The environment of `BaseEnv.__init__`'s default arguments
(11×11 board, four agents, standard map and type). -/
def envDefault : BaseEnv.EnvState :=
  BaseEnv.init 11 11 4 DEFAULT_COLORS "standard" "standard"

/-- The solo session right after `reset(seed=42)`: `agents = ["agent_0"]`
and one living snake on the board. -/
def stSolo : BaseEnv.EnvState := (BaseEnv.reset env0 (some 42) true 0).1

/-- The living snake of `stSolo` (as spawned by `env_reset`). -/
def snakeSolo : Snake :=
  { id := "agent_0", body := [(1, 3), (1, 3), (1, 3)], health := 100,
    alive := true, cause := none }

/-- A moves mapping sending the solo agent up. -/
def mvUp : Moves := [("agent_0", some 0)]

/-- The engine state after resolving `mvUp` on `stSolo.game`. -/
def gSolo1 : GameState :=
  { width := 7, height := 7, food := [(4, 0)],
    snakes := [{ id := "agent_0", body := [(1, 4), (1, 3), (1, 3)],
                 health := 99, alive := true, cause := none }],
    turn := 1, rng := 1250496027, threshold := 0 }

/-- The per-agent results the engine reports for that turn. -/
def resSolo1 : List (String × TurnResult) :=
  [("agent_0",
    { observation :=
        { food := [(4, 0)], snakes := [("agent_0", [(1, 4), (1, 3), (1, 3)], 99)],
          turn := 1 }
      reward := 0, done := false, info := none })]

/-- The wrapper state after `step stSolo mvUp`. -/
def stSolo1 : BaseEnv.EnvState := { stSolo with game := gSolo1 }

/-- The `five`-tuple `step` returns for that turn. -/
def retSolo1 : BaseEnv.StepReturn :=
  .five (resSolo1.map fun p => (p.1, p.2.observation))
    (resSolo1.map fun p => (p.1, p.2.reward))
    (resSolo1.map fun p => (p.1, p.2.done))
    (stSolo.agents.map fun a => (a, false))
    (resSolo1.map fun p => (p.1, p.2.info))

/-- A two-agent session whose wrapper-level `agents` list was emptied by a
falsy `step` call while both snakes are still alive on the board
(reachable: `step({})` empties `agents` without touching the engine). -/
def stTwo : BaseEnv.EnvState :=
  { (BaseEnv.reset (BaseEnv.init 11 11 2 DEFAULT_COLORS "standard" "standard")
      (some 1) true 0).1 with
    agents := ([] : List String) }

/-- Moves for the two-agent session: both snakes move up. -/
def mvBothUp : Moves := [("agent_0", some 0), ("agent_1", some 0)]

/-! ## Helper lemmas -/

theorem envReset_entropy_irrelevant (o : BattlesnakeOptions) (s : Int)
    (h : o.seed = some s) (e1 e2 : Nat) : envReset o e1 = envReset o e2 := by
  unfold envReset
  rw [h]
  simp only [seedOrFresh]

theorem reset_entropy_irrelevant (st : BaseEnv.EnvState) (s : Int) (hs : s ≠ 0)
    (ri : Bool) (e1 e2 : Nat) :
    BaseEnv.reset st (some s) ri e1 = BaseEnv.reset st (some s) ri e2 := by
  have h : ({ st.options with seed := BaseEnv.storeSeed (some s) } : BattlesnakeOptions).seed
      = some s := by
    show BaseEnv.storeSeed (some s) = some s
    simp [BaseEnv.storeSeed, hs]
  exact congrArg
    (BaseEnv.resetBuild st { st.options with seed := BaseEnv.storeSeed (some s) } ri)
    (envReset_entropy_irrelevant _ s h e1 e2)

theorem agentName_ne_empty (i : Nat) : ("agent_" ++ toString i) ≠ "" := by
  intro hc
  have hlen := congrArg String.length hc
  rw [String.length_append] at hlen
  simp at hlen
  exact absurd hlen.1 (by decide)

theorem step_cons_ok (st : BaseEnv.EnvState) (m : String × Option Nat) (ms : Moves)
    (g : GameState) (res : List (String × TurnResult))
    (heng : envStep st.game (m :: ms) = .ok (g, res)) :
    BaseEnv.step st (some (m :: ms)) =
      .ok ((if envDone g = true then { st with game := g, agents := ([] : List String) }
            else { st with game := g }),
        .five (res.map fun p => (p.1, p.2.observation))
          (res.map fun p => (p.1, p.2.reward))
          (res.map fun p => (p.1, p.2.done))
          (st.agents.map fun a => (a, false))
          (res.map fun p => (p.1, p.2.info))) := by
  show BaseEnv.stepBuild st envDone (envStep st.game (m :: ms)) = _
  rw [heng]
  rfl

/-! ## Claims -/

/-- C9: a falsy `action` (Python `None` or the empty dict) makes `step` skip
the engine entirely — for every engine, it empties the `agents` list and
returns the 4-tuple of empty observations/rewards/dones/infos dicts,
without the truncations component the non-empty path returns. -/
theorem step_falsy_skips_engine
    (engineStep : GameState → Moves → Except EngineError (GameState × List (String × TurnResult)))
    (engineDone : GameState → Bool) (st : BaseEnv.EnvState) (action : Option Moves)
    (h : action = none ∨ action = some []) :
    BaseEnv.stepWith engineStep engineDone st action =
      .ok ({ st with agents := [] }, .four [] [] [] []) := by
  rcases h with h | h <;> subst h <;> rfl

/-- Witness for C9: the session engine with the empty dict. -/
theorem step_falsy_skips_engine_witness :
    ((some ([] : Moves)) = none ∨ (some ([] : Moves)) = some []) ∧
      BaseEnv.step env0 (some []) = .ok ({ env0 with agents := [] }, .four [] [] [] []) :=
  ⟨Or.inr rfl, step_falsy_skips_engine envStep envDone env0 (some []) (Or.inr rfl)⟩

/-- C10: `reset` with `seed=0` stores `None` into the session options — a
zero seed is treated as if no seed were given and does not re-seed the
random source. -/
theorem reset_zero_seed_stored_none (st : BaseEnv.EnvState) (ri : Bool) (e : Nat) :
    (BaseEnv.reset st (some 0) ri e).1.options.seed = none := rfl

/-- C8: evaluated at a valid agent of the default environment,
`observation_space` returns the empty `Dict` space: it declares no board
occupancy, snake body/health, or turn-number fields at all. -/
theorem observation_space_is_empty_dict :
    ("agent_0" ∈ envDefault.possibleAgents) ∧
      BaseEnv.observation_space envDefault (some "agent_0") = .ok ⟨[]⟩ := by
  exact ⟨by decide, by decide⟩

/-- C4 counterexample: `reset` with the given seed `0` does not store the
given seed — the stored seed is `None`, not `some 0`. -/
theorem reset_given_seed_not_stored :
    (BaseEnv.reset env0 (some 0) true 0).1.options.seed ≠ some 0 := by decide

/-- C4 (amended): a given nonzero seed is stored into the session options
(re-seeding the random source with it); an absent seed — and likewise the
falsy seed `0` — stores `None`, so a fresh source is used. -/
theorem reset_seed_stored (st : BaseEnv.EnvState) (ri : Bool) (e : Nat) (s : Int)
    (hs : s ≠ 0) :
    (BaseEnv.reset st (some s) ri e).1.options.seed = some s ∧
      (BaseEnv.reset st none ri e).1.options.seed = none ∧
      (BaseEnv.reset st (some 0) ri e).1.options.seed = none := by
  refine ⟨?_, rfl, rfl⟩
  show BaseEnv.storeSeed (some s) = some s
  simp [BaseEnv.storeSeed, hs]

/-- Witness for C4 (amended) at seed 42. -/
theorem reset_seed_stored_witness :
    (42 : Int) ≠ 0 ∧
      ((BaseEnv.reset env0 (some 42) true 0).1.options.seed = some 42 ∧
        (BaseEnv.reset env0 none true 0).1.options.seed = none ∧
        (BaseEnv.reset env0 (some 0) true 0).1.options.seed = none) :=
  ⟨by decide, reset_seed_stored env0 true 0 42 (by decide)⟩

/-- C5: for every valid render mode, `render` returns `None` and the state
it reports back is exactly the input state — a pure read-only projection
that leaves the agents list and the session options unchanged. -/
theorem render_pure (st : BaseEnv.EnvState) (mode : String)
    (h : mode = "ascii" ∨ mode = "color" ∨ mode = "human") :
    ∃ out, BaseEnv.render st mode = .ok (st, none, out) :=
  ⟨_, by unfold BaseEnv.render; rw [if_pos h]⟩

/-- Witness for C5 in mode `color`. -/
theorem render_pure_witness :
    (("color" : String) = "ascii" ∨ ("color" : String) = "color" ∨ ("color" : String) = "human") ∧
      ∃ out, BaseEnv.render env0 "color" = .ok (env0, none, out) :=
  ⟨Or.inr (Or.inl rfl), render_pure env0 "color" (Or.inr (Or.inl rfl))⟩

/-- C1 counterexample: on a live session, the empty moves dict omits the
living agent's move, yet `step` does not fail with `MissingMove` — it
returns successfully with four empty dicts, never consulting the engine. -/
theorem step_empty_dict_not_missing_move :
    (∃ s ∈ stSolo.game.snakes, s.alive = true ∧ (([] : Moves)).lookup s.id = none) ∧
      BaseEnv.step stSolo (some []) ≠ .error .missingMove ∧
      BaseEnv.step stSolo (some []) = .ok ({ stSolo with agents := [] }, .four [] [] [] []) :=
  ⟨by decide, by decide, by decide⟩

/-- C1 (amended): for every call to `step` whose non-empty moves mapping
omits a move for a living agent, the call fails with `MissingMove` (raised
by the engine and propagated to the caller) rather than resolving the
turn; the empty (falsy) mapping instead short-circuits `step` without
consulting the engine. -/
theorem step_missing_move (st : BaseEnv.EnvState) (m : String × Option Nat)
    (ms : Moves) (s : Snake) (hs : s ∈ st.game.snakes) (halive : s.alive = true)
    (hmiss : ((m :: ms : Moves)).lookup s.id = none) :
    BaseEnv.step st (some (m :: ms)) = .error .missingMove := by
  have hany : ((livingSnakes st.game).any fun t => !(hasMove (m :: ms) t.id)) = true := by
    rw [List.any_eq_true]
    refine ⟨s, List.mem_filter.mpr ⟨hs, halive⟩, ?_⟩
    simp [hasMove, hmiss]
  show BaseEnv.stepBuild st envDone (envStep st.game (m :: ms)) = _
  unfold envStep
  rw [if_pos hany]
  rfl

/-- Witness for C1 (amended): a non-empty mapping that names only a bogus
agent leaves the living snake without a move, and `step` fails. -/
theorem step_missing_move_witness :
    (snakeSolo ∈ stSolo.game.snakes ∧ snakeSolo.alive = true ∧
        (([("bogus", some 0)] : Moves)).lookup snakeSolo.id = none) ∧
      BaseEnv.step stSolo (some [("bogus", some 0)]) = .error .missingMove :=
  ⟨⟨by decide, by decide, by decide⟩,
    step_missing_move stSolo ("bogus", some 0) [] snakeSolo (by decide) (by decide) (by decide)⟩

/-- C2 counterexample: with seed 0 the wrapper stores no seed, so each
replay draws fresh entropy: two replays of the same session and move
sequence yield different TurnResult sequences (the spawned food differs,
so the first step's observations differ). -/
theorem session_replay_seed_zero_diverges :
    runSession env0 (some 0) 0 [mvUp] ≠ runSession env0 (some 0) 1 [mvUp] := by decide

/-- C2 (amended): for every nonzero seed and every move sequence, two
replays of the session produce identical sequences of per-agent
TurnResults, whatever fresh entropy each run would otherwise have drawn;
for seed 0 the wrapper stores `None` and outcomes may diverge. -/
theorem session_replay_deterministic (st : BaseEnv.EnvState) (s : Int) (hs : s ≠ 0)
    (e1 e2 : Nat) (ms : List Moves) :
    runSession st (some s) e1 ms = runSession st (some s) e2 ms := by
  unfold runSession
  rw [reset_entropy_irrelevant st s hs true e1 e2]

/-- Witness for C2 (amended) at seed 42 with one step. -/
theorem session_replay_deterministic_witness :
    ((42 : Int) ≠ 0) ∧
      runSession env0 (some 42) 0 [mvUp] = runSession env0 (some 42) 1 [mvUp] :=
  ⟨by decide, session_replay_deterministic env0 42 (by decide) 0 1 [mvUp]⟩

/-- C3: for a non-empty moves mapping, when the engine's turn resolution
reports `res`, `step` returns one entry per reported agent, and the
observations / rewards / dones / infos dicts hold exactly each agent's
observation, reward, done and info fields of the engine's TurnResult. -/
theorem step_copies_engine_fields (st : BaseEnv.EnvState) (m : String × Option Nat)
    (ms : Moves) (g : GameState) (res : List (String × TurnResult))
    (heng : envStep st.game (m :: ms) = .ok (g, res)) :
    ∃ st', BaseEnv.step st (some (m :: ms)) =
      .ok (st', .five (res.map fun p => (p.1, p.2.observation))
        (res.map fun p => (p.1, p.2.reward))
        (res.map fun p => (p.1, p.2.done))
        (st.agents.map fun a => (a, false))
        (res.map fun p => (p.1, p.2.info))) :=
  ⟨_, step_cons_ok st m ms g res heng⟩

/-- Witness for C3: the solo session stepped up for one turn. -/
theorem step_copies_engine_fields_witness :
    (envStep stSolo.game (("agent_0", some 0) :: []) = .ok (gSolo1, resSolo1)) ∧
      ∃ st', BaseEnv.step stSolo (some (("agent_0", some 0) :: [])) =
        .ok (st', .five (resSolo1.map fun p => (p.1, p.2.observation))
          (resSolo1.map fun p => (p.1, p.2.reward))
          (resSolo1.map fun p => (p.1, p.2.done))
          (stSolo.agents.map fun a => (a, false))
          (resSolo1.map fun p => (p.1, p.2.info))) :=
  ⟨by decide,
    step_copies_engine_fields stSolo ("agent_0", some 0) [] gSolo1 resSolo1 (by decide)⟩

/-- C6: for every agent of the constructed environment, `action_space`
returns the `Discrete(4)` space, and the `Move` space contains an integer
iff it is one of the four encoded moves 0, 1, 2, 3 (up, down, left,
right). -/
theorem action_space_four_moves (w h n : Nat) (cols : List String) (gm gt : String)
    (a : String) (ha : a ∈ (BaseEnv.init w h n cols gm gt).possibleAgents) :
    BaseEnv.action_space (BaseEnv.init w h n cols gm gt) (some a) = .ok ⟨4⟩ ∧
      ∀ x : Int, Move.containsInt x = true ↔ (x = 0 ∨ x = 1 ∨ x = 2 ∨ x = 3) := by
  constructor
  · have hne : a ≠ "" := by
      have ha' : a ∈ (List.range n).map (fun i => "agent_" ++ toString i) := ha
      obtain ⟨i, _, rfl⟩ := List.mem_map.mp ha'
      exact agentName_ne_empty i
    have hred : BaseEnv.action_space (BaseEnv.init w h n cols gm gt) (some a) =
        (if a = "" then .error "Agent must be provided"
         else if a ∈ (BaseEnv.init w h n cols gm gt).possibleAgents then .ok ⟨4⟩
         else .error "agent must be one of possible_agents") := rfl
    rw [hred, if_neg hne, if_pos ha]
  · intro x
    simp [Move.containsInt, SpaceDiscrete.containsInt, Move.space, Move.possible_moves]
    omega

/-- Witness for C6 at `agent_0` of the default environment. -/
theorem action_space_four_moves_witness :
    ("agent_0" ∈ envDefault.possibleAgents) ∧
      (BaseEnv.action_space envDefault (some "agent_0") = .ok ⟨4⟩ ∧
        ∀ x : Int, Move.containsInt x = true ↔ (x = 0 ∨ x = 1 ∨ x = 2 ∨ x = 3)) :=
  ⟨by decide,
    action_space_four_moves 11 11 4 DEFAULT_COLORS "standard" "standard" "agent_0" (by decide)⟩

/-- C7 counterexample: stepping `stTwo` (its agents list already empty,
both snakes alive on the board) with a non-empty moves mapping ends with
an empty agents list although the engine's done-check is false. -/
theorem step_agents_empty_without_done :
    (BaseEnv.okState (BaseEnv.step stTwo (some mvBothUp))).map (fun s => s.agents) = some [] ∧
      (BaseEnv.okState (BaseEnv.step stTwo (some mvBothUp))).map (fun s => envDone s.game) =
        some false :=
  ⟨by decide, by decide⟩

/-- C7 (amended): after every step with a non-empty moves mapping from a
state whose agents list is non-empty, the agents list becomes empty iff
the engine's done-check reports true on the post-turn state. -/
theorem step_agents_empty_iff_done (st : BaseEnv.EnvState) (m : String × Option Nat)
    (ms : Moves) (g : GameState) (res : List (String × TurnResult))
    (st' : BaseEnv.EnvState) (r : BaseEnv.StepReturn)
    (hagents : st.agents ≠ [])
    (heng : envStep st.game (m :: ms) = .ok (g, res))
    (hstep : BaseEnv.step st (some (m :: ms)) = .ok (st', r)) :
    (st'.agents = [] ↔ envDone g = true) := by
  have hk := step_cons_ok st m ms g res heng
  rw [hstep] at hk
  have hst' : st' =
      (if envDone g = true then { st with game := g, agents := ([] : List String) }
       else { st with game := g }) := by
    have hp := congrArg Prod.fst (Except.ok.inj hk)
    simpa using hp
  by_cases hd : envDone g = true
  · rw [hst', if_pos hd]
    simp [hd]
  · rw [hst', if_neg hd]
    simp [hd, hagents]

/-- Witness for C7 (amended): the solo session stepped up once — the agent
survives, the done-check is false, and the agents list stays non-empty. -/
theorem step_agents_empty_iff_done_witness :
    (stSolo.agents ≠ []) ∧ (stSolo1.agents = [] ↔ envDone gSolo1 = true) :=
  ⟨by decide,
    step_agents_empty_iff_done stSolo ("agent_0", some 0) [] gSolo1 resSolo1 stSolo1 retSolo1
      (by decide) (by decide) (by decide)⟩

end PZ
